import Mathlib

/-!
Shallow embedding of the location capture-and-submit flow and the location
ingest endpoint of the `vinuprivateimages` repository.

The client flow is modelled from `src/App.tsx` (Express-targeting variant)
and `src/app/page.tsx` (Next.js variant): the `requestLocation` callback,
the `syncWithMongoDB` submission helper, and the `AppState` union from
`src/types.ts`.  The server side is modelled from the Next.js API route
handler `POST` bundled in `src/app/page.tsx`, the Mongoose `LocationSchema`
document shape, and the cached-connection singleton `dbConnect` from
`src/lib/mongodb.ts`.

JavaScript numbers are modelled as rationals.  JS truthiness of a
possibly-absent number is "present and nonzero" (JS `NaN` is also falsy,
but has no rational counterpart and is not produced anywhere in this flow);
an array value is always truthy in JS, even when empty, which the
`jsTruthyArr` predicate reflects.  Asynchronous effects (fetch, mongoose
connect/save) are modelled by passing their outcome in explicitly as a
parameter, and `setState`/`setError` calls by an explicit list of
`ClientState` snapshots in the order the setters run.
-/

namespace GeoConsent

/-- UI states of the client flow, from the `AppState` union in `src/types.ts`. -/
inductive AppState
  | INITIAL
  | CONSENT_PENDING
  | LOCATION_GRANTED
  | LOCATION_DENIED
  | PROCESSING
  | SYNCING
deriving DecidableEq, Repr

/-- One geolocation fix as reported by the host, the `LocationData`
interface of `src/types.ts`. -/
structure LocationData where
  latitude : Rat
  longitude : Rat
  accuracy : Rat
  timestamp : Rat
deriving DecidableEq, Repr

/-- The two React state cells of the client component: `state` and `error`. -/
structure ClientState where
  appState : AppState
  errorMsg : Option String
deriving DecidableEq, Repr

/-- The JSON body the client POSTs, as built inside `syncWithMongoDB`. -/
structure SubmissionPayload where
  userId : String
  coordinates : List Rat
  accuracy : Rat
  userAgent : String
deriving DecidableEq, Repr

/-- Payload constructed by `syncWithMongoDB` in `src/App.tsx`:
`coordinates: [data.longitude, data.latitude]` (GeoJSON lng-lat order). -/
def buildPayload (ua : String) (d : LocationData) : SubmissionPayload :=
  { userId := "Vinu Varshith CP",
    coordinates := [d.longitude, d.latitude],
    accuracy := d.accuracy,
    userAgent := ua }

/-- Payload constructed by `syncWithMongoDB` in `src/app/page.tsx`
(Next.js variant); the construction is identical to the Express variant. -/
def buildPayloadNext (ua : String) (d : LocationData) : SubmissionPayload :=
  { userId := "Vinu Varshith CP",
    coordinates := [d.longitude, d.latitude],
    accuracy := d.accuracy,
    userAgent := ua }

/-- Outcome of the `fetch` call issued by `syncWithMongoDB`. -/
inductive FetchOutcome
  | success
  | httpError (status : Nat)
  | networkError
  | timedOut
deriving DecidableEq, Repr

/-- Exceptions that can reach the `catch` block of `syncWithMongoDB`:
the explicit `throw new Error` on a non-ok response, a rejected fetch,
or the abort fired by the 5-second timeout controller. -/
inductive SyncError
  | apiError
  | fetchFailed
  | aborted
deriving DecidableEq, Repr

/-- What the `try` block of `syncWithMongoDB` does with each fetch outcome:
`response.ok` completes normally, a non-2xx response throws
`new Error(API_ERROR)`, and a network failure or abort rejects. -/
def fetchResult (o : FetchOutcome) : Except SyncError Unit :=
  match o with
  | FetchOutcome.success => Except.ok ()
  | FetchOutcome.httpError _ => Except.error SyncError.apiError
  | FetchOutcome.networkError => Except.error SyncError.fetchFailed
  | FetchOutcome.timedOut => Except.error SyncError.aborted

/-- Console observation emitted by `syncWithMongoDB`: the success log on
`response.ok`, or the server-not-detected warning from the catch block. -/
inductive SyncLog
  | syncSuccess
  | serverNotDetected
deriving DecidableEq, Repr

/-- The `syncWithMongoDB` helper of `src/App.tsx`: sets state to `SYNCING`,
builds the payload, runs the fetch inside try/catch (the catch only logs
and delays), and in the `finally` block always sets state to
`LOCATION_GRANTED`.  Returns the state snapshots after each `setState`,
the payload sent, and the console observation. -/
def syncWithMongoDB (s : ClientState) (d : LocationData) (ua : String)
    (o : FetchOutcome) : List ClientState × SubmissionPayload × SyncLog :=
  let s1 : ClientState := { s with appState := AppState.SYNCING }
  let payload := buildPayload ua d
  let log :=
    match fetchResult o with
    | Except.ok _ => SyncLog.syncSuccess
    | Except.error _ => SyncLog.serverNotDetected
  ([s1, { s1 with appState := AppState.LOCATION_GRANTED }], payload, log)

/-- Error message set when `navigator.geolocation` is absent, `src/App.tsx`. -/
def unsupportedMsg : String := "Geolocation is not supported by your browser."

/-- Remediation message chosen by the error callback of
`getCurrentPosition` in `src/App.tsx`: the `msg` variable starts at the
generic fallback and the if-chain on `err.code` (PERMISSION_DENIED = 1,
POSITION_UNAVAILABLE = 2, TIMEOUT = 3) overwrites it. -/
def geoErrorMsgApp (code : Nat) : String :=
  if code = 1 then
    "Location Access Denied. Please click the \x27Lock\x27 icon in your browser address bar and set Location to \x27Allow\x27."
  else if code = 2 then
    "GPS signal unavailable. Ensure location services are enabled on your device."
  else if code = 3 then
    "Request timed out. Please try again."
  else
    "Could not verify location."

/-- Remediation message chosen by the error callback in `src/app/page.tsx`
(Next.js variant), which compares `err.code` against the literals 1, 2, 3. -/
def geoErrorMsgNext (code : Nat) : String :=
  if code = 1 then
    "Location Access Denied. Enable it in your browser settings."
  else if code = 2 then
    "GPS signal unavailable."
  else if code = 3 then
    "Timeout occurred."
  else
    "Verification failed."

/-- Failure taxonomy of the spec, as realised by the if-chain on the host
error code (the unsupported-host path is a separate branch of
`requestLocation` and never reaches this classification). -/
inductive FailureKind
  | permissionDenied
  | positionUnavailable
  | timedOutKind
  | unknownFailure
deriving DecidableEq, Repr

/-- Classification of a host geolocation error code by the if-chain of
the error callback: 1, 2 and 3 are the three categorical host failures. -/
def classifyGeoFailure (code : Nat) : FailureKind :=
  if code = 1 then FailureKind.permissionDenied
  else if code = 2 then FailureKind.positionUnavailable
  else if code = 3 then FailureKind.timedOutKind
  else FailureKind.unknownFailure

/-- Result of one `getCurrentPosition` call: the success callback receives
a position, the error callback receives a numeric code. -/
inductive GeoOutcome
  | success (pos : LocationData)
  | failure (code : Nat)
deriving DecidableEq, Repr

/-- The host environment seen by `requestLocation`: whether
`navigator.geolocation` exists, and what a position request would yield. -/
structure Host where
  geolocationSupported : Bool
  fix : GeoOutcome
deriving DecidableEq, Repr

/-- Everything one run of `requestLocation` produces: the `ClientState`
snapshots after each setter call in order, whether `getCurrentPosition`
was invoked at all, the payload submitted (when a fix succeeded), and the
submission console observation. -/
structure FlowResult where
  trace : List ClientState
  attemptedFix : Bool
  payload : Option SubmissionPayload
  syncLog : Option SyncLog
deriving DecidableEq, Repr

/-- The `requestLocation` callback of `src/App.tsx`: clears the error and
enters `PROCESSING`; if the host lacks geolocation it sets the unsupported
message and enters `LOCATION_DENIED` without requesting a fix; otherwise
it requests one fix, on success handing the data to `syncWithMongoDB` and
on failure setting the mapped remediation message and entering
`LOCATION_DENIED`. -/
def requestLocation (s : ClientState) (host : Host) (ua : String)
    (net : FetchOutcome) : FlowResult :=
  let s1 : ClientState := { appState := AppState.PROCESSING, errorMsg := none }
  if host.geolocationSupported = false then
    let s2 : ClientState :=
      { appState := AppState.LOCATION_DENIED, errorMsg := some unsupportedMsg }
    { trace := [s1, s2], attemptedFix := false, payload := none, syncLog := none }
  else
    match host.fix with
    | GeoOutcome.success pos =>
      let r := syncWithMongoDB s1 pos ua net
      { trace := s1 :: r.1, attemptedFix := true,
        payload := some r.2.1, syncLog := some r.2.2 }
    | GeoOutcome.failure code =>
      let s2 : ClientState :=
        { appState := AppState.LOCATION_DENIED,
          errorMsg := some (geoErrorMsgApp code) }
      { trace := [s1, s2], attemptedFix := true, payload := none, syncLog := none }

/-- Request body as destructured by the API route handler:
`const { coordinates, accuracy, userId, userAgent } = body`.  Each field
may be absent from the JSON object. -/
structure IngestBody where
  coordinates : Option (List Rat)
  accuracy : Option Rat
  userId : Option String
  userAgent : Option String
deriving DecidableEq, Repr

/-- JS truthiness of the destructured `accuracy` field: absent (undefined)
and 0 are falsy, every other number is truthy. -/
def jsTruthyNum (x : Option Rat) : Bool :=
  match x with
  | none => false
  | some v => decide (v ≠ 0)

/-- JS truthiness of the destructured `coordinates` field: absent is falsy;
an array object is always truthy, whatever its length. -/
def jsTruthyArr (x : Option (List Rat)) : Bool :=
  match x with
  | none => false
  | some _ => true

/-- JS `a || dflt` for a possibly-absent string, used for
`userId: userId || constant`: absent or empty falls back. -/
def jsOrDefault (u : Option String) (dflt : String) : String :=
  match u with
  | none => dflt
  | some v => if v = "" then dflt else v

/-- JS `a || b` for two possibly-absent strings, used for
`userAgent: userAgent || req.headers.get(user-agent)`. -/
def jsOrElse (u : Option String) (fb : Option String) : Option String :=
  match u with
  | none => fb
  | some v => if v = "" then fb else some v

/-- GeoJSON point sub-document of the Mongoose `LocationSchema`. -/
structure GeoPoint where
  type : String
  coordinates : List Rat
deriving DecidableEq, Repr

/-- One persisted document, shaped by the Mongoose `LocationSchema`
(`userId`, GeoJSON `location`, `accuracy`, `userAgent`, `timestamp`)
plus the assigned document identity.  The schema declares a 2dsphere
index and no unique/deduplication key. -/
structure LocationDoc where
  id : String
  userId : String
  location : GeoPoint
  accuracy : Rat
  userAgent : Option String
  timestamp : Nat
deriving DecidableEq, Repr

/-- Server-side environment of one request to the API route: whether
`dbConnect` succeeds, whether `newLocation.save()` succeeds, the identity
Mongoose assigns to the new document, the request user-agent header, and
the server clock used for `timestamp: new Date()`. -/
structure ServerEnv where
  connOk : Bool
  saveOk : Bool
  assignedId : String
  headerUA : Option String
  now : Nat
deriving DecidableEq, Repr

/-- The `new Location({...})` document built by the route handler from a
body that passed the truthiness check (so `coordinates` and `accuracy`
are present there; `getD` encodes that knowledge). -/
def mkLocationDoc (env : ServerEnv) (body : IngestBody) : LocationDoc :=
  { id := env.assignedId,
    userId := jsOrDefault body.userId "Vinu Varshith CP",
    location := { type := "Point", coordinates := body.coordinates.getD [] },
    accuracy := body.accuracy.getD 0,
    userAgent := jsOrElse body.userAgent env.headerUA,
    timestamp := env.now }

/-- HTTP JSON response of the route handler; fields that a given branch
does not emit are `none`. -/
structure ApiResponse where
  status : Nat
  success : Option Bool := none
  message : Option String := none
  id : Option String := none
  error : Option String := none
deriving DecidableEq, Repr

/-- The `POST` route handler of the Next.js API route bundled in
`src/app/page.tsx`: inside one try block it awaits `dbConnect`, parses
the JSON body, rejects with 400 when `!coordinates || !accuracy`, builds
the document and saves it, answering 201 with the assigned id; any
exception (connection failure, body parse failure, save failure) falls
into the single catch block, which answers 500.  The store is the
Location collection, modelled as the list of persisted documents. -/
def POST (env : ServerEnv) (parsedBody : Option IngestBody)
    (store : List LocationDoc) : ApiResponse × List LocationDoc :=
  if env.connOk = false then
    ({ status := 500, success := some false,
       error := some "Database write failed" }, store)
  else
    match parsedBody with
    | none =>
      ({ status := 500, success := some false,
         error := some "Database write failed" }, store)
    | some body =>
      if !(jsTruthyArr body.coordinates) || !(jsTruthyNum body.accuracy) then
        ({ status := 400, error := some "Missing required fields" }, store)
      else if env.saveOk then
        ({ status := 201, success := some true,
           message := some "Location indexed successfully",
           id := some env.assignedId },
         store ++ [mkLocationDoc env body])
      else
        ({ status := 500, success := some false,
           error := some "Database write failed" }, store)

/-- The eventual outcome of one `mongoose.connect` promise. -/
inductive ConnAttempt
  | resolves (c : Nat)
  | rejects
deriving DecidableEq, Repr

/-- The module-level `cached` object of `src/lib/mongodb.ts`:
`{ conn: null, promise: null }` initially.  A stored promise is modelled
together with its eventual outcome. -/
structure MongooseCache where
  conn : Option Nat
  promise : Option ConnAttempt
deriving DecidableEq, Repr

/-- The `dbConnect` singleton of `src/lib/mongodb.ts` (the variant bundled
in `src/components/Background.tsx` is the same logic plus logging): return
the cached connection when present; otherwise create the connect promise
if none is stored, await it, cache the connection on success, and on
failure clear the stored promise and rethrow.  The `attempt` parameter is
the outcome a freshly created `mongoose.connect` call would have. -/
def dbConnect (cache : MongooseCache) (attempt : ConnAttempt) :
    Except Unit Nat × MongooseCache :=
  match cache.conn with
  | some c => (Except.ok c, cache)
  | none =>
    let p :=
      match cache.promise with
      | some q => q
      | none => attempt
    match p with
    | ConnAttempt.resolves c =>
      (Except.ok c, { conn := some c, promise := some p })
    | ConnAttempt.rejects =>
      (Except.error (), { conn := none, promise := none })

/-- Claim C1: for every successful capture, the SubmissionPayload built by
the client places the coordinates as [longitude, latitude] — longitude
first, never swapped — in both client variants, and the payload the flow
submits is exactly that payload. -/
theorem payload_coordinates_lng_lat (pos : LocationData) (s : ClientState)
    (ua : String) (net : FetchOutcome) :
    (requestLocation s
        { geolocationSupported := true, fix := GeoOutcome.success pos }
        ua net).payload = some (buildPayload ua pos)
    ∧ (buildPayload ua pos).coordinates = [pos.longitude, pos.latitude]
    ∧ (buildPayloadNext ua pos).coordinates = [pos.longitude, pos.latitude] :=
  ⟨rfl, rfl, rfl⟩

/-- Claim C2: after a successful capture, `syncWithMongoDB` ends in the
`LOCATION_GRANTED` terminal state for every network outcome — 2xx,
non-2xx, network error, or timeout — leaving the error cell untouched,
and the full flow therefore ends at `LOCATION_GRANTED` with no
user-visible error; only the console observation differs with the
outcome. -/
theorem submit_always_grants (s : ClientState) (d : LocationData)
    (ua : String) (o : FetchOutcome) :
    (syncWithMongoDB s d ua o).1.getLast?
      = some { appState := AppState.LOCATION_GRANTED, errorMsg := s.errorMsg }
    ∧ (∀ st, st ∈ (syncWithMongoDB s d ua o).1 → st.errorMsg = s.errorMsg)
    ∧ (∀ pos : LocationData,
        (requestLocation s
            { geolocationSupported := true, fix := GeoOutcome.success pos }
            ua o).trace.getLast?
          = some { appState := AppState.LOCATION_GRANTED, errorMsg := none }) := by
  refine ⟨rfl, ?_, fun pos => rfl⟩
  intro st hst
  simp [syncWithMongoDB] at hst
  rcases hst with h | h <;> subst h <;> rfl

/-- Claim C3: every host capture failure (categorical code 1, 2 or 3) is
mapped to exactly one of the three kinds PermissionDenied,
PositionUnavailable, Timeout; each kind has its own non-empty remediation
message — pairwise distinct in both client variants — and the flow ends
in the `LOCATION_DENIED` state carrying that message. -/
theorem capture_failure_taxonomy (s : ClientState) (ua : String)
    (net : FetchOutcome) (code : Nat)
    (h : code = 1 ∨ code = 2 ∨ code = 3) :
    (classifyGeoFailure code = FailureKind.permissionDenied
      ∨ classifyGeoFailure code = FailureKind.positionUnavailable
      ∨ classifyGeoFailure code = FailureKind.timedOutKind)
    ∧ (requestLocation s
        { geolocationSupported := true, fix := GeoOutcome.failure code }
        ua net).trace.getLast?
      = some { appState := AppState.LOCATION_DENIED,
               errorMsg := some (geoErrorMsgApp code) }
    ∧ geoErrorMsgApp code ≠ "" ∧ geoErrorMsgNext code ≠ ""
    ∧ (geoErrorMsgApp 1 ≠ geoErrorMsgApp 2 ∧ geoErrorMsgApp 1 ≠ geoErrorMsgApp 3
        ∧ geoErrorMsgApp 2 ≠ geoErrorMsgApp 3)
    ∧ (geoErrorMsgNext 1 ≠ geoErrorMsgNext 2
        ∧ geoErrorMsgNext 1 ≠ geoErrorMsgNext 3
        ∧ geoErrorMsgNext 2 ≠ geoErrorMsgNext 3) := by
  rcases h with h | h | h <;> subst h <;>
    exact ⟨by decide, rfl, by decide, by decide, by decide, by decide⟩

/-- Witness for C3 at the concrete permission-denied code 1. -/
theorem capture_failure_taxonomy_witness :
    (requestLocation { appState := AppState.INITIAL, errorMsg := none }
        { geolocationSupported := true, fix := GeoOutcome.failure 1 }
        "ua" FetchOutcome.success).trace.getLast?
      = some { appState := AppState.LOCATION_DENIED,
               errorMsg := some (geoErrorMsgApp 1) } :=
  (capture_failure_taxonomy { appState := AppState.INITIAL, errorMsg := none }
    "ua" FetchOutcome.success 1 (Or.inl rfl)).2.1

/-- Claim C6: `requestLocation` always clears the prior error and enters
`PROCESSING` first; when the host has no geolocation capability it then
sets the non-empty unsupported-environment message and enters
`LOCATION_DENIED` without ever requesting a position fix, whatever fix
the host would have produced. -/
theorem unsupported_environment_denied (s : ClientState) (fix : GeoOutcome)
    (ua : String) (net : FetchOutcome) :
    (requestLocation s { geolocationSupported := false, fix := fix } ua net).trace
      = [{ appState := AppState.PROCESSING, errorMsg := none },
         { appState := AppState.LOCATION_DENIED,
           errorMsg := some unsupportedMsg }]
    ∧ (requestLocation s { geolocationSupported := false, fix := fix }
        ua net).attemptedFix = false
    ∧ unsupportedMsg ≠ ""
    ∧ (∀ host : Host,
        (requestLocation s host ua net).trace.head?
          = some { appState := AppState.PROCESSING, errorMsg := none }) := by
  refine ⟨rfl, rfl, by decide, ?_⟩
  intro host
  unfold requestLocation
  rcases hg : host.geolocationSupported with _ | _
  · simp
  · rcases host.fix with pos | code <;> simp [syncWithMongoDB]

/-- Claim C4 counterexample: a payload whose coordinates array has length
3 does NOT fail with 400 — the truthiness check passes it, so with a
working store the handler answers 201 and persists a document, and with a
failing store it answers 500; in neither case the claimed 400. -/
theorem ingest_length_unchecked_counterexample :
    (POST { connOk := true, saveOk := true, assignedId := "cex", headerUA := none, now := 0 }
        (some { coordinates := some [1, 2, 3], accuracy := some 5,
                userId := none, userAgent := none }) []).1.status = 201
    ∧ ((POST { connOk := true, saveOk := true, assignedId := "cex", headerUA := none, now := 0 }
        (some { coordinates := some [1, 2, 3], accuracy := some 5,
                userId := none, userAgent := none }) []).2).length = 1
    ∧ (POST { connOk := true, saveOk := false, assignedId := "cex", headerUA := none, now := 0 }
        (some { coordinates := some [1, 2, 3], accuracy := some 5,
                userId := none, userAgent := none }) []).1.status = 500 := by
  decide

/-- Claim C4 as amended: given a working connection and a parsed body, the
handler answers 400 exactly when `coordinates` or `accuracy` is falsy
(absent, or accuracy 0); on that 400 nothing is persisted.  The length of
the coordinates array and the finiteness of its entries are not
validated. -/
theorem ingest_validation_truthiness (env : ServerEnv) (body : IngestBody)
    (store : List LocationDoc) (hconn : env.connOk = true) :
    ((POST env (some body) store).1.status = 400
      ↔ (jsTruthyArr body.coordinates = false
          ∨ jsTruthyNum body.accuracy = false))
    ∧ ((jsTruthyArr body.coordinates = false
          ∨ jsTruthyNum body.accuracy = false) →
        (POST env (some body) store).2 = store) := by
  cases hA : jsTruthyArr body.coordinates <;>
    cases hN : jsTruthyNum body.accuracy <;>
    cases hS : env.saveOk <;>
    simp [POST, hconn, hA, hN, hS]

/-- Witness for the amended C4: a body with coordinates present but
accuracy absent is answered 400. -/
theorem ingest_validation_truthiness_witness :
    (POST { connOk := true, saveOk := true, assignedId := "w4",
            headerUA := none, now := 0 }
        (some { coordinates := some [3, 4], accuracy := none,
                userId := none, userAgent := none }) []).1.status = 400 :=
  ((ingest_validation_truthiness
      { connOk := true, saveOk := true, assignedId := "w4",
        headerUA := none, now := 0 }
      { coordinates := some [3, 4], accuracy := none,
        userId := none, userAgent := none }
      [] rfl).1).mpr (Or.inr rfl)

/-- Claim C5: for every payload passing the presence check, a working
store yields exactly one appended document and the 201 response carrying
`success: true` and the assigned id, while a failed save (storage
unreachable or write rejected, one attempt, no retry) yields the 500
response with `success: false` and an error string and leaves the store
unchanged. -/
theorem ingest_success_and_storage_failure (env : ServerEnv)
    (body : IngestBody) (store : List LocationDoc)
    (hconn : env.connOk = true)
    (hc : jsTruthyArr body.coordinates = true)
    (ha : jsTruthyNum body.accuracy = true) :
    (env.saveOk = true →
      POST env (some body) store
        = ({ status := 201, success := some true,
             message := some "Location indexed successfully",
             id := some env.assignedId },
           store ++ [mkLocationDoc env body]))
    ∧ (env.saveOk = false →
      POST env (some body) store
        = ({ status := 500, success := some false,
             error := some "Database write failed" }, store)) := by
  constructor <;> intro hs <;> simp [POST, hconn, hc, ha, hs]

/-- Witness for C5 at a concrete valid payload and a working store. -/
theorem ingest_success_witness :
    POST { connOk := true, saveOk := true, assignedId := "rec1",
           headerUA := none, now := 1700000000000 }
        (some { coordinates := some [77, 11], accuracy := some 20,
                userId := none, userAgent := none }) []
      = ({ status := 201, success := some true,
           message := some "Location indexed successfully",
           id := some "rec1" },
         [mkLocationDoc
            { connOk := true, saveOk := true, assignedId := "rec1",
              headerUA := none, now := 1700000000000 }
            { coordinates := some [77, 11], accuracy := some 20,
              userId := none, userAgent := none }]) :=
  (ingest_success_and_storage_failure
      { connOk := true, saveOk := true, assignedId := "rec1",
        headerUA := none, now := 1700000000000 }
      { coordinates := some [77, 11], accuracy := some 20,
        userId := none, userAgent := none }
      [] rfl rfl rfl).1 rfl

/-- Claim C7: once a connection is cached, every later `dbConnect` call
returns that same connection and leaves the cache untouched, whatever a
fresh connect attempt would do; and a failed attempt is not cached — the
promise is cleared, so the immediately following call retries and can
succeed. -/
theorem dbConnect_singleton_and_retry :
    (∀ (cache : MongooseCache) (a : ConnAttempt) (c : Nat),
        cache.conn = some c → dbConnect cache a = (Except.ok c, cache))
    ∧ (∀ cNew : Nat,
        dbConnect { conn := none, promise := none } ConnAttempt.rejects
          = (Except.error (), { conn := none, promise := none })
        ∧ dbConnect
            (dbConnect { conn := none, promise := none } ConnAttempt.rejects).2
            (ConnAttempt.resolves cNew)
          = (Except.ok cNew,
             { conn := some cNew,
               promise := some (ConnAttempt.resolves cNew) })) := by
  constructor
  · intro cache a c h
    simp [dbConnect, h]
  · intro cNew
    exact ⟨rfl, rfl⟩

/-- Witness for C7: a cached connection 7 is returned unchanged even when
a fresh attempt would reject. -/
theorem dbConnect_singleton_and_retry_witness :
    dbConnect { conn := some 7, promise := none } ConnAttempt.rejects
      = (Except.ok 7, { conn := some 7, promise := none }) :=
  dbConnect_singleton_and_retry.1
    { conn := some 7, promise := none } ConnAttempt.rejects 7 rfl

/-- Claim C8: two successful ingest calls with the same valid body append
two documents — the original store is preserved as a prefix, nothing is
updated or deleted, the store grows by exactly two, and when the server
timestamps differ the two appended records are distinct (no
deduplication). -/
theorem ingest_append_twice (e1 e2 : ServerEnv) (body : IngestBody)
    (store : List LocationDoc)
    (h1c : e1.connOk = true) (h1s : e1.saveOk = true)
    (h2c : e2.connOk = true) (h2s : e2.saveOk = true)
    (hc : jsTruthyArr body.coordinates = true)
    (ha : jsTruthyNum body.accuracy = true) :
    (POST e2 (some body) (POST e1 (some body) store).2).2
      = store ++ [mkLocationDoc e1 body, mkLocationDoc e2 body]
    ∧ ((POST e2 (some body) (POST e1 (some body) store).2).2).length
      = store.length + 2
    ∧ (e1.now ≠ e2.now → mkLocationDoc e1 body ≠ mkLocationDoc e2 body) := by
  refine ⟨?_, ?_, ?_⟩
  · simp [POST, h1c, h1s, h2c, h2s, hc, ha]
  · simp [POST, h1c, h1s, h2c, h2s, hc, ha]
  · intro hne heq
    exact hne (congrArg LocationDoc.timestamp heq)

/-- Witness for C8: the same body ingested at two server times yields a
two-element store of distinct records. -/
theorem ingest_append_twice_witness :
    (POST { connOk := true, saveOk := true, assignedId := "b",
            headerUA := none, now := 2 }
      (some { coordinates := some [10, 20], accuracy := some 5,
              userId := none, userAgent := none })
      (POST { connOk := true, saveOk := true, assignedId := "a",
              headerUA := none, now := 1 }
        (some { coordinates := some [10, 20], accuracy := some 5,
                userId := none, userAgent := none }) []).2).2
      = [mkLocationDoc
           { connOk := true, saveOk := true, assignedId := "a",
             headerUA := none, now := 1 }
           { coordinates := some [10, 20], accuracy := some 5,
             userId := none, userAgent := none },
         mkLocationDoc
           { connOk := true, saveOk := true, assignedId := "b",
             headerUA := none, now := 2 }
           { coordinates := some [10, 20], accuracy := some 5,
             userId := none, userAgent := none }]
    ∧ mkLocationDoc
        { connOk := true, saveOk := true, assignedId := "a",
          headerUA := none, now := 1 }
        { coordinates := some [10, 20], accuracy := some 5,
          userId := none, userAgent := none }
      ≠ mkLocationDoc
          { connOk := true, saveOk := true, assignedId := "b",
            headerUA := none, now := 2 }
          { coordinates := some [10, 20], accuracy := some 5,
            userId := none, userAgent := none } :=
  ⟨(ingest_append_twice
      { connOk := true, saveOk := true, assignedId := "a",
        headerUA := none, now := 1 }
      { connOk := true, saveOk := true, assignedId := "b",
        headerUA := none, now := 2 }
      { coordinates := some [10, 20], accuracy := some 5,
        userId := none, userAgent := none }
      [] rfl rfl rfl rfl rfl rfl).1,
   (ingest_append_twice
      { connOk := true, saveOk := true, assignedId := "a",
        headerUA := none, now := 1 }
      { connOk := true, saveOk := true, assignedId := "b",
        headerUA := none, now := 2 }
      { coordinates := some [10, 20], accuracy := some 5,
        userId := none, userAgent := none }
      [] rfl rfl rfl rfl rfl rfl).2.2 (by decide)⟩

/-- Claim C9: a payload whose accuracy is exactly 0 — present, numeric,
and satisfying the data model's accuracy ≥ 0 — is rejected with 400 and
nothing is persisted, because the validation is a truthiness check under
which 0 is falsy. -/
theorem ingest_zero_accuracy_rejected (env : ServerEnv) (cs : List Rat)
    (uid uaB : Option String) (store : List LocationDoc)
    (hconn : env.connOk = true) :
    (POST env
        (some { coordinates := some cs, accuracy := some 0,
                userId := uid, userAgent := uaB }) store).1.status = 400
    ∧ (POST env
        (some { coordinates := some cs, accuracy := some 0,
                userId := uid, userAgent := uaB }) store).2 = store
    ∧ jsTruthyNum (some (0 : Rat)) = false
    ∧ (0 : Rat) ≥ 0 := by
  refine ⟨?_, ?_, rfl, le_refl 0⟩ <;>
    simp [POST, hconn, jsTruthyNum, jsTruthyArr]

/-- Witness for C9 at a concrete two-element coordinate pair. -/
theorem ingest_zero_accuracy_rejected_witness :
    (POST { connOk := true, saveOk := true, assignedId := "w9",
            headerUA := none, now := 0 }
        (some { coordinates := some [77, 11], accuracy := some 0,
                userId := none, userAgent := none }) []).1.status = 400 :=
  (ingest_zero_accuracy_rejected
      { connOk := true, saveOk := true, assignedId := "w9",
        headerUA := none, now := 0 }
      [77, 11] none none [] rfl).1

/-- Claim C10: `dbConnect` is awaited before the body is parsed or
validated, so when the connection attempt fails every request — a body
missing coordinates or accuracy, or even an unparseable body — receives
the 500 storage-error response, never the 400 validation response, and
nothing is persisted. -/
theorem ingest_conn_failure_always_500 (env : ServerEnv)
    (body : Option IngestBody) (store : List LocationDoc)
    (hconn : env.connOk = false) :
    POST env body store
      = ({ status := 500, success := some false,
           error := some "Database write failed" }, store) := by
  simp [POST, hconn]

/-- Witness for C10: with a failed connection, a body missing its
coordinates still gets the 500 storage response, not a 400. -/
theorem ingest_conn_failure_always_500_witness :
    POST { connOk := false, saveOk := true, assignedId := "w10",
           headerUA := none, now := 0 }
        (some { coordinates := none, accuracy := none,
                userId := none, userAgent := none }) []
      = ({ status := 500, success := some false,
           error := some "Database write failed" }, []) :=
  ingest_conn_failure_always_500
    { connOk := false, saveOk := true, assignedId := "w10",
      headerUA := none, now := 0 }
    (some { coordinates := none, accuracy := none,
            userId := none, userAgent := none }) [] rfl

end GeoConsent
